import Mathlib

/-!
Verification of the diabetes-prediction inference-and-recommendation
pipeline (`src/app.py`).

The Python feature mapping (a dict from feature name to numeric value) is
embedded extensionally as a function `String → Option ℚ`: `features.get(k, d)`
becomes `fget features k d`.  Because a Python dict's lookup is independent of
its key insertion order, the extensional embedding captures every dict
regardless of key order.  Numeric values are embedded as rationals.
-/

/-- A patient feature mapping: the Python dict passed to the pipeline. -/
def FeatureSet : Type := String → Option ℚ

/-- `features.get(key, d)` on a Python dict. -/
def fget (features : FeatureSet) (key : String) (d : ℚ) : ℚ :=
  (features key).getD d

/-- One identified clinical concern, as built by `get_risk_factors`. -/
structure RiskFactor where
  factor : String
  severity : String
  description : String
  deriving DecidableEq, Repr

/-- Embedding of `get_risk_factors` (src/app.py lines 240-302): the sequential
`risk_factors.append(...)` calls become re-bindings of the accumulator. -/
def get_risk_factors (features : FeatureSet) : List RiskFactor :=
  let risk_factors : List RiskFactor := []
  let risk_factors :=
    if fget features "HighBP" 0 = 1 then
      risk_factors ++ [{ factor := "High Blood Pressure", severity := "high", description := "Elevated blood pressure increases diabetes risk" }]
    else risk_factors
  let risk_factors :=
    if fget features "HighChol" 0 = 1 then
      risk_factors ++ [{ factor := "High Cholesterol", severity := "high", description := "High cholesterol is associated with diabetes" }]
    else risk_factors
  let bmi := fget features "BMI" 0
  let risk_factors :=
    if bmi ≥ 30 then
      risk_factors ++ [{ factor := "High BMI (" ++ toString bmi ++ ")", severity := "critical", description := "Obesity significantly increases diabetes risk" }]
    else if bmi ≥ 25 then
      risk_factors ++ [{ factor := "Overweight BMI (" ++ toString bmi ++ ")", severity := "moderate", description := "Being overweight increases diabetes risk" }]
    else risk_factors
  let risk_factors :=
    if fget features "HeartDiseaseorAttack" 0 = 1 then
      risk_factors ++ [{ factor := "Heart Disease", severity := "high", description := "Cardiovascular disease is linked to diabetes" }]
    else risk_factors
  let risk_factors :=
    if fget features "PhysActivity" 0 = 0 then
      risk_factors ++ [{ factor := "Low Physical Activity", severity := "moderate", description := "Lack of exercise increases diabetes risk" }]
    else risk_factors
  let risk_factors :=
    if fget features "Smoker" 0 = 1 then
      risk_factors ++ [{ factor := "Smoking", severity := "high", description := "Smoking increases diabetes risk by 30-40%" }]
    else risk_factors
  let gen_health := fget features "GenHlth" 3
  let risk_factors :=
    if gen_health ≥ 4 then
      risk_factors ++ [{ factor := "Poor General Health", severity := "moderate", description := "Poor health status correlates with diabetes" }]
    else risk_factors
  risk_factors

/-- Rule 1 of `get_risk_factors` in isolation: HighBP. -/
def rule_HighBP (features : FeatureSet) : List RiskFactor :=
  if fget features "HighBP" 0 = 1 then
    [{ factor := "High Blood Pressure", severity := "high", description := "Elevated blood pressure increases diabetes risk" }]
  else []

/-- Rule 2 of `get_risk_factors` in isolation: HighChol. -/
def rule_HighChol (features : FeatureSet) : List RiskFactor :=
  if fget features "HighChol" 0 = 1 then
    [{ factor := "High Cholesterol", severity := "high", description := "High cholesterol is associated with diabetes" }]
  else []

/-- Rule 3 of `get_risk_factors` in isolation: the BMI if/elif. -/
def rule_BMI (features : FeatureSet) : List RiskFactor :=
  let bmi := fget features "BMI" 0
  if bmi ≥ 30 then
    [{ factor := "High BMI (" ++ toString bmi ++ ")", severity := "critical", description := "Obesity significantly increases diabetes risk" }]
  else if bmi ≥ 25 then
    [{ factor := "Overweight BMI (" ++ toString bmi ++ ")", severity := "moderate", description := "Being overweight increases diabetes risk" }]
  else []

/-- Rule 4 of `get_risk_factors` in isolation: HeartDiseaseorAttack. -/
def rule_HeartDisease (features : FeatureSet) : List RiskFactor :=
  if fget features "HeartDiseaseorAttack" 0 = 1 then
    [{ factor := "Heart Disease", severity := "high", description := "Cardiovascular disease is linked to diabetes" }]
  else []

/-- Rule 5 of `get_risk_factors` in isolation: PhysActivity. -/
def rule_PhysActivity (features : FeatureSet) : List RiskFactor :=
  if fget features "PhysActivity" 0 = 0 then
    [{ factor := "Low Physical Activity", severity := "moderate", description := "Lack of exercise increases diabetes risk" }]
  else []

/-- Rule 6 of `get_risk_factors` in isolation: Smoker. -/
def rule_Smoker (features : FeatureSet) : List RiskFactor :=
  if fget features "Smoker" 0 = 1 then
    [{ factor := "Smoking", severity := "high", description := "Smoking increases diabetes risk by 30-40%" }]
  else []

/-- Rule 7 of `get_risk_factors` in isolation: GenHlth. -/
def rule_GenHlth (features : FeatureSet) : List RiskFactor :=
  if fget features "GenHlth" 3 ≥ 4 then
    [{ factor := "Poor General Health", severity := "moderate", description := "Poor health status correlates with diabetes" }]
  else []

/-- Pulling a conditional append out of the accumulator. -/
theorem append_ite {α : Type} (c : Prop) [Decidable c] (l la : List α) :
    (if c then l ++ la else l) = l ++ if c then la else [] := by
  split <;> simp

/-- Pulling a two-branch conditional append out of the accumulator. -/
theorem append_ite₂ {α : Type} (c : Prop) [Decidable c] (l la lb : List α) :
    (if c then l ++ la else l ++ lb) = l ++ if c then la else lb := by
  split <;> simp

/-- `get_risk_factors` is the in-order concatenation of the seven rules. -/
theorem get_risk_factors_decomp (features : FeatureSet) :
    get_risk_factors features
      = rule_HighBP features ++ rule_HighChol features ++ rule_BMI features
          ++ rule_HeartDisease features ++ rule_PhysActivity features
          ++ rule_Smoker features ++ rule_GenHlth features := by
  simp only [get_risk_factors, rule_HighBP, rule_HighChol, rule_BMI,
    rule_HeartDisease, rule_PhysActivity, rule_Smoker, rule_GenHlth,
    append_ite, append_ite₂]
  simp only [List.nil_append, List.append_assoc]

/-- The highest-urgency message of `get_emergency_note`. -/
def HIGH_PRIORITY_NOTE : String :=
  "⚠️ HIGH PRIORITY: Multiple critical risk factors detected. Consult a healthcare provider immediately."

/-- The elevated-risk message of `get_emergency_note`. -/
def ELEVATED_RISK_NOTE : String :=
  "⚠️ ELEVATED RISK: Schedule an appointment with your healthcare provider for comprehensive evaluation."

/-- The maintenance message of `get_emergency_note`. -/
def MAINTAIN_NOTE : String :=
  "✅ MAINTAIN HEALTHY HABITS: Continue preventive measures and regular health monitoring."

/-- Embedding of `get_emergency_note` (src/app.py lines 373-382). -/
def get_emergency_note (prediction : ℤ) (risk_factors : List RiskFactor) : String :=
  let critical_factors := risk_factors.filter (fun rf => rf.severity == "critical")
  if prediction = 1 ∧ critical_factors.length > 2 then HIGH_PRIORITY_NOTE
  else if prediction = 1 then ELEVATED_RISK_NOTE
  else MAINTAIN_NOTE

/-- The recommendation bundle built by `generate_base_recommendations`. -/
structure Recommendations where
  ai_generated : Bool
  emergency_note : String
  lifestyle : List String
  medical : List String
  nutrition : List String
  exercise : List String
  deriving DecidableEq, Repr

/-- Embedding of `generate_base_recommendations` (src/app.py lines 304-371):
each category list is an accumulator re-bound by the sequential appends. -/
def generate_base_recommendations (features : FeatureSet) (prediction : ℤ)
    (risk_factors : List RiskFactor) : Recommendations :=
  let lifestyle : List String := []
  let medical : List String := []
  let nutrition : List String := []
  let exercise : List String := []
  let lifestyle :=
    if fget features "Smoker" 0 = 1 then
      lifestyle ++ ["🚭 Quit smoking - reduces diabetes risk by 30-40% within 5 years"]
    else lifestyle
  let exercise :=
    if fget features "PhysActivity" 0 = 0 then
      exercise ++ ["🏃 Start with 30 minutes of moderate exercise 5 days per week",
        "💪 Include both cardio and strength training exercises"]
    else exercise
  let bmi := fget features "BMI" 0
  let lifestyle :=
    if bmi ≥ 25 then
      lifestyle ++ ["⚖️ Weight management: Target BMI < 25 (current: " ++ toString bmi ++ ")"]
    else lifestyle
  let nutrition :=
    if bmi ≥ 25 then
      nutrition ++ ["🥗 Follow a balanced diet with calorie deficit for weight loss"]
    else nutrition
  let nutrition := nutrition ++ [
    "🍎 Increase fiber intake: whole grains, vegetables, fruits",
    "🥤 Limit sugary drinks and processed foods",
    "🍽️ Practice portion control and regular meal timing",
    "💧 Stay hydrated: 8-10 glasses of water daily"]
  let medical :=
    if fget features "HighBP" 0 = 1 then
      medical ++ ["🩺 Monitor blood pressure regularly, target <130/80 mmHg"]
    else medical
  let medical :=
    if fget features "HighChol" 0 = 1 then
      medical ++ ["💊 Monitor cholesterol levels, consider statin therapy if needed"]
    else medical
  let medical := medical ++ [
    "🔬 Get HbA1c test every 3-6 months",
    "👨‍⚕️ Schedule regular check-ups with healthcare provider",
    "📊 Monitor fasting blood glucose weekly"]
  let exercise :=
    if exercise = [] then
      exercise ++ [
        "🚶 Walking: 10,000 steps daily",
        "🏋️ Resistance training: 2-3 times per week",
        "🧘 Yoga or stretching: stress management and flexibility"]
    else exercise
  { ai_generated := false,
    emergency_note := get_emergency_note prediction risk_factors,
    lifestyle := lifestyle,
    medical := medical,
    nutrition := nutrition,
    exercise := exercise }

/-- Embedding of `XGBoostBoosterWrapper` (src/app.py lines 21-36).  The wrapped
`xgboost.Booster` is opaque: it is any row-scoring function from an input
matrix to one positive-class probability per row. -/
structure XGBoostBoosterWrapper where
  booster : List (List ℚ) → List ℚ

/-- `XGBoostBoosterWrapper.predict`: `(proba > 0.5).astype(int)`. -/
def XGBoostBoosterWrapper.predict (w : XGBoostBoosterWrapper)
    (X : List (List ℚ)) : List ℤ :=
  (w.booster X).map (fun proba => if proba > 0.5 then 1 else 0)

/-- `XGBoostBoosterWrapper.predict_proba`: `np.column_stack([1 - proba, proba])`. -/
def XGBoostBoosterWrapper.predict_proba (w : XGBoostBoosterWrapper)
    (X : List (List ℚ)) : List (List ℚ) :=
  (w.booster X).map (fun proba => [1 - proba, proba])

/-- Modelled from the spec: the canonical required ordered feature list
(21 entries, spec section 6).  In the source it is loaded from the model
artifact (`model_data['features']`), which is not part of the repository's
files. -/
def FEATURES : List String :=
  ["HighBP", "HighChol", "CholCheck", "BMI", "Smoker", "Stroke",
   "HeartDiseaseorAttack", "PhysActivity", "Fruits", "Veggies",
   "HvyAlcoholConsump", "AnyHealthcare", "NoDocbcCost", "GenHlth",
   "MentHlth", "PhysHlth", "DiffWalk", "Sex", "Age", "Education", "Income"]

/-- What the validation part of the `/predict` handler produces: either the
400 response naming the missing and required features, or the input row
reordered to the canonical feature order. -/
inductive ValidationOutcome where
  | error (missing : List String) (required : List String)
  | ok (row : List ℚ)
  deriving DecidableEq, Repr

/-- Embedding of the feature-validation part of `predict` (src/app.py lines
181-194): `missing_features = [f for f in FEATURES if f not in input_features]`,
error if any, else the row reordered as `input_df[FEATURES]`. -/
def predict_validate (input_features : FeatureSet) : ValidationOutcome :=
  let missing_features := FEATURES.filter (fun f => (input_features f).isNone)
  if missing_features.isEmpty then
    ValidationOutcome.ok (FEATURES.map (fun f => fget input_features f 0))
  else
    ValidationOutcome.error missing_features FEATURES

/-- One row of the batch response's `predictions` list: the success record
carries the prediction fields, the failure record only the 1-based
`patient_id` and the error message. -/
inductive BatchItem where
  | success (patient_id : ℕ) (prediction : ℤ) (risk_level : String)
      (confidence : Option ℚ) (risk_percentage : Option ℚ)
  | failure (patient_id : ℕ) (error : String)
  deriving DecidableEq, Repr

/-- The batch response (src/app.py lines 421-425), without the timestamp. -/
structure BatchResponse where
  total_patients : ℕ
  predictions : List BatchItem
  deriving DecidableEq, Repr

/-- The body of the `try` block of the batch loop (src/app.py lines 400-419)
for the patient at 0-based index `i`.  `process` stands for the opaque
fallible part — column selection, `SCALER.transform`, `MODEL.predict`,
`MODEL.predict_proba` — returning the label and the optional probability
pair, or the exception's message. -/
def batch_item (process : FeatureSet → Except String (ℤ × Option (ℚ × ℚ)))
    (i : ℕ) (patient : FeatureSet) : BatchItem :=
  match process patient with
  | Except.ok (prediction, proba) =>
      BatchItem.success (i + 1) prediction
        (if prediction = 1 then "High Risk" else "Low Risk")
        (proba.map (fun p => max p.1 p.2))
        (proba.map (fun p => p.2 * 100))
  | Except.error e => BatchItem.failure (i + 1) e

/-- The `for i, patient in enumerate(patients_data)` loop of `batch_predict`,
carrying the 0-based index. -/
def batch_loop (process : FeatureSet → Except String (ℤ × Option (ℚ × ℚ))) :
    ℕ → List FeatureSet → List BatchItem
  | _, [] => []
  | i, patient :: rest => batch_item process i patient :: batch_loop process (i + 1) rest

/-- Embedding of `batch_predict` (src/app.py lines 384-431). -/
def batch_predict (process : FeatureSet → Except String (ℤ × Option (ℚ × ℚ)))
    (patients_data : List FeatureSet) : BatchResponse :=
  { total_patients := patients_data.length,
    predictions := batch_loop process 0 patients_data }

/-- A severity comparison used when counting critical factors. -/
theorem high_beq_critical : (("high" : String) == "critical") = false := by decide

/-- A severity comparison used when counting critical factors. -/
theorem moderate_beq_critical : (("moderate" : String) == "critical") = false := by decide

/-- A severity comparison used when counting critical factors. -/
theorem critical_beq_critical : (("critical" : String) == "critical") = true := by decide

/-- C1: for every feature mapping, `get_risk_factors` returns the risk
factors in the fixed rule order HighBP, HighChol, BMI, HeartDiseaseorAttack,
PhysActivity, Smoker, GenHlth, each rule triggering independently at its
fixed threshold (key order of the input mapping cannot matter: the mapping
is embedded extensionally); and the BMI rule emits at most one factor,
severity critical when BMI ≥ 30, otherwise severity moderate when
BMI ≥ 25, never both. -/
theorem risk_factors_fixed_rule_order (features : FeatureSet) :
    get_risk_factors features
      = rule_HighBP features ++ rule_HighChol features ++ rule_BMI features
          ++ rule_HeartDisease features ++ rule_PhysActivity features
          ++ rule_Smoker features ++ rule_GenHlth features
  ∧ rule_BMI features
      = (if fget features "BMI" 0 ≥ 30 then
          [{ factor := "High BMI (" ++ toString (fget features "BMI" 0) ++ ")", severity := "critical", description := "Obesity significantly increases diabetes risk" }]
        else if fget features "BMI" 0 ≥ 25 then
          [{ factor := "Overweight BMI (" ++ toString (fget features "BMI" 0) ++ ")", severity := "moderate", description := "Being overweight increases diabetes risk" }]
        else [])
  ∧ (rule_BMI features).length ≤ 1 := by
  refine ⟨get_risk_factors_decomp features, rfl, ?_⟩
  simp only [rule_BMI]
  split_ifs <;> simp

/-- The concrete feature mapping of the spec's order example: HighBP=1,
BMI=32, Smoker=1 (and PhysActivity=1 so no other rule triggers). -/
def order_example : FeatureSet := fun k =>
  if k = "HighBP" then some 1
  else if k = "BMI" then some 32
  else if k = "Smoker" then some 1
  else if k = "PhysActivity" then some 1
  else none

/-- C1 at the spec's concrete example: the factors come out in rule order
HighBP, BMI (critical), Smoker. -/
theorem risk_factors_fixed_rule_order_witness :
    get_risk_factors order_example
      = [{ factor := "High Blood Pressure", severity := "high", description := "Elevated blood pressure increases diabetes risk" },
         { factor := "High BMI (32)", severity := "critical", description := "Obesity significantly increases diabetes risk" },
         { factor := "Smoking", severity := "high", description := "Smoking increases diabetes risk by 30-40%" }] := by
  have h := (risk_factors_fixed_rule_order order_example).1
  rw [h]
  decide

/-- The three emergency messages are pairwise distinct. -/
theorem emergency_notes_distinct :
    HIGH_PRIORITY_NOTE ≠ ELEVATED_RISK_NOTE
  ∧ HIGH_PRIORITY_NOTE ≠ MAINTAIN_NOTE
  ∧ ELEVATED_RISK_NOTE ≠ MAINTAIN_NOTE := by
  refine ⟨?_, ?_, ?_⟩ <;> decide

/-- C3: for every prediction label and risk-factor list, the emergency note
is exactly one of three messages, selected by: label 1 with more than 2
critical-severity factors gives the HIGH PRIORITY message; otherwise label 1
gives the ELEVATED RISK message; otherwise the MAINTAIN HEALTHY HABITS
message. -/
theorem emergency_note_selection (prediction : ℤ) (risk_factors : List RiskFactor) :
    (get_emergency_note prediction risk_factors = HIGH_PRIORITY_NOTE
      ∨ get_emergency_note prediction risk_factors = ELEVATED_RISK_NOTE
      ∨ get_emergency_note prediction risk_factors = MAINTAIN_NOTE)
  ∧ (get_emergency_note prediction risk_factors = HIGH_PRIORITY_NOTE
      ↔ prediction = 1
        ∧ (risk_factors.filter (fun rf => rf.severity == "critical")).length > 2)
  ∧ (get_emergency_note prediction risk_factors = ELEVATED_RISK_NOTE
      ↔ prediction = 1
        ∧ (risk_factors.filter (fun rf => rf.severity == "critical")).length ≤ 2)
  ∧ (get_emergency_note prediction risk_factors = MAINTAIN_NOTE ↔ prediction ≠ 1) := by
  obtain ⟨d1, d2, d3⟩ := emergency_notes_distinct
  simp only [get_emergency_note]
  split_ifs with h1 h2
  · exact ⟨Or.inl rfl,
      ⟨fun _ => h1, fun _ => rfl⟩,
      ⟨fun he => (d1 he).elim, fun hc => by omega⟩,
      ⟨fun he => (d2 he).elim, fun hne => (hne h1.1).elim⟩⟩
  · have hlen : (risk_factors.filter (fun rf => rf.severity == "critical")).length ≤ 2 := by
      by_contra hgt
      exact h1 ⟨h2, by omega⟩
    exact ⟨Or.inr (Or.inl rfl),
      ⟨fun he => (d1 he.symm).elim, fun hc => (h1 hc).elim⟩,
      ⟨fun _ => ⟨h2, hlen⟩, fun _ => rfl⟩,
      ⟨fun he => (d3 he).elim, fun hne => (hne h2).elim⟩⟩
  · exact ⟨Or.inr (Or.inr rfl),
      ⟨fun he => (d2 he.symm).elim, fun hc => (h2 hc.1).elim⟩,
      ⟨fun he => (d3 he.symm).elim, fun hc => (h2 hc.1).elim⟩,
      ⟨fun _ => h2, fun _ => rfl⟩⟩

/-- Only the BMI ≥ 30 rule emits severity critical, so `get_risk_factors`
never produces more than one critical-severity factor. -/
theorem critical_count_le_one (features : FeatureSet) :
    ((get_risk_factors features).filter (fun rf => rf.severity == "critical")).length ≤ 1 := by
  rw [get_risk_factors_decomp]
  simp only [rule_HighBP, rule_HighChol, rule_BMI, rule_HeartDisease,
    rule_PhysActivity, rule_Smoker, rule_GenHlth, List.filter_append]
  split_ifs <;>
    simp [List.filter, high_beq_critical, moderate_beq_critical, critical_beq_critical]

/-- C9: `get_risk_factors` emits severity critical only from the single
BMI ≥ 30 rule, so its output has at most one critical-severity factor;
consequently the more-than-2-critical branch of `get_emergency_note` is
unreachable on extractor output, and a label-1 prediction always receives
the elevated-risk message. -/
theorem extractor_note_at_most_one_critical (features : FeatureSet) (prediction : ℤ) :
    ((get_risk_factors features).filter (fun rf => rf.severity == "critical")).length ≤ 1
  ∧ get_emergency_note prediction (get_risk_factors features) ≠ HIGH_PRIORITY_NOTE
  ∧ get_emergency_note 1 (get_risk_factors features) = ELEVATED_RISK_NOTE := by
  obtain ⟨d1, d2, d3⟩ := emergency_notes_distinct
  have hle := critical_count_le_one features
  refine ⟨hle, ?_, ?_⟩
  · simp only [get_emergency_note]
    split_ifs with h1 h2
    · exact absurd h1.2 (by omega)
    · exact d1.symm
    · exact d2.symm
  · simp only [get_emergency_note]
    split_ifs with h1
    · exact absurd h1.2 (by omega)
    · rfl

/-- C9 at a concrete input: an at-risk patient with a critical BMI factor
still gets the elevated-risk note, never the high-priority one. -/
theorem extractor_note_at_most_one_critical_witness :
    ((get_risk_factors order_example).filter (fun rf => rf.severity == "critical")).length ≤ 1
  ∧ get_emergency_note 1 (get_risk_factors order_example) ≠ HIGH_PRIORITY_NOTE
  ∧ get_emergency_note 1 (get_risk_factors order_example) = ELEVATED_RISK_NOTE :=
  extractor_note_at_most_one_critical order_example 1

/-- C6: the exercise category is never empty: exactly the two activity
entries when PhysActivity == 0, and otherwise (no other exercise rule
exists) exactly the three default maintenance entries appended because the
category is still empty after all rules. -/
theorem exercise_never_empty (features : FeatureSet) (prediction : ℤ)
    (risk_factors : List RiskFactor) :
    (generate_base_recommendations features prediction risk_factors).exercise
      = (if fget features "PhysActivity" 0 = 0 then
          ["🏃 Start with 30 minutes of moderate exercise 5 days per week",
           "💪 Include both cardio and strength training exercises"]
        else
          ["🚶 Walking: 10,000 steps daily",
           "🏋️ Resistance training: 2-3 times per week",
           "🧘 Yoga or stretching: stress management and flexibility"])
  ∧ 0 < (generate_base_recommendations features prediction risk_factors).exercise.length := by
  have h : (generate_base_recommendations features prediction risk_factors).exercise
      = (if fget features "PhysActivity" 0 = 0 then
          ["🏃 Start with 30 minutes of moderate exercise 5 days per week",
           "💪 Include both cardio and strength training exercises"]
        else
          ["🚶 Walking: 10,000 steps daily",
           "🏋️ Resistance training: 2-3 times per week",
           "🧘 Yoga or stretching: stress management and flexibility"]) := by
    simp only [generate_base_recommendations]
    split_ifs <;> simp_all
  refine ⟨h, ?_⟩
  rw [h]
  split_ifs <;> simp

/-- An active patient: PhysActivity = 1, nothing else set. -/
def active_example : FeatureSet := fun k =>
  if k = "PhysActivity" then some 1 else none

/-- C6 at concrete inputs: PhysActivity=0 (here: key missing, default 0)
gives exactly 2 exercise entries; PhysActivity=1 gives the 3 fallback
entries. -/
theorem exercise_never_empty_witness :
    (generate_base_recommendations active_example 1 []).exercise.length = 3
  ∧ (generate_base_recommendations (fun _ => none) 1 []).exercise.length = 2 := by
  have h1 := (exercise_never_empty active_example 1 []).1
  have h2 := (exercise_never_empty (fun _ => none) 1 []).1
  rw [h1, h2]
  constructor
  · rw [if_neg (by decide)]
    rfl
  · rw [if_pos (by decide)]
    rfl

/-- C7: the nutrition category always ends with the four fixed generic
entries appended after any BMI-triggered entry; the medical category always
ends with the three fixed generic entries appended after the HighBP and
HighChol entries; and `ai_generated` is always false. -/
theorem nutrition_medical_generic_entries (features : FeatureSet) (prediction : ℤ)
    (risk_factors : List RiskFactor) :
    (generate_base_recommendations features prediction risk_factors).nutrition
      = (if fget features "BMI" 0 ≥ 25 then
          ["🥗 Follow a balanced diet with calorie deficit for weight loss"] else [])
        ++ ["🍎 Increase fiber intake: whole grains, vegetables, fruits",
            "🥤 Limit sugary drinks and processed foods",
            "🍽️ Practice portion control and regular meal timing",
            "💧 Stay hydrated: 8-10 glasses of water daily"]
  ∧ (generate_base_recommendations features prediction risk_factors).medical
      = (if fget features "HighBP" 0 = 1 then
          ["🩺 Monitor blood pressure regularly, target <130/80 mmHg"] else [])
        ++ (if fget features "HighChol" 0 = 1 then
            ["💊 Monitor cholesterol levels, consider statin therapy if needed"] else [])
        ++ ["🔬 Get HbA1c test every 3-6 months",
            "👨‍⚕️ Schedule regular check-ups with healthcare provider",
            "📊 Monitor fasting blood glucose weekly"]
  ∧ (generate_base_recommendations features prediction risk_factors).ai_generated = false := by
  refine ⟨?_, ?_, rfl⟩
  · simp only [generate_base_recommendations]
    split_ifs <;> simp
  · simp only [generate_base_recommendations]
    split_ifs <;> simp

/-- C7 at a concrete input: with no triggers the nutrition category is
exactly the four generics and the medical category exactly the three. -/
theorem nutrition_medical_generic_entries_witness :
    (generate_base_recommendations active_example 0 []).nutrition
      = ["🍎 Increase fiber intake: whole grains, vegetables, fruits",
         "🥤 Limit sugary drinks and processed foods",
         "🍽️ Practice portion control and regular meal timing",
         "💧 Stay hydrated: 8-10 glasses of water daily"]
  ∧ (generate_base_recommendations active_example 0 []).medical
      = ["🔬 Get HbA1c test every 3-6 months",
         "👨‍⚕️ Schedule regular check-ups with healthcare provider",
         "📊 Monitor fasting blood glucose weekly"]
  ∧ (generate_base_recommendations active_example 0 []).ai_generated = false := by
  obtain ⟨h1, h2, h3⟩ := nutrition_medical_generic_entries active_example 0 []
  rw [h1, h2]
  refine ⟨?_, ?_, h3⟩
  · rw [if_neg (by decide)]
    rfl
  · rw [if_neg (by decide), if_neg (by decide)]
    rfl

/-- The neutral default `get_risk_factors` falls back to for a missing key:
3 for GenHlth, 0 for the binary flags and BMI. -/
def default_value (k : String) : ℚ :=
  if k = "GenHlth" then 3 else 0

/-- `get_risk_factors` reads the feature mapping only through its seven
`fget` accesses with their defaults. -/
theorem get_risk_factors_congr (f g : FeatureSet)
    (hbp : fget f "HighBP" 0 = fget g "HighBP" 0)
    (hchol : fget f "HighChol" 0 = fget g "HighChol" 0)
    (hbmi : fget f "BMI" 0 = fget g "BMI" 0)
    (hheart : fget f "HeartDiseaseorAttack" 0 = fget g "HeartDiseaseorAttack" 0)
    (hphys : fget f "PhysActivity" 0 = fget g "PhysActivity" 0)
    (hsmoker : fget f "Smoker" 0 = fget g "Smoker" 0)
    (hgen : fget f "GenHlth" 3 = fget g "GenHlth" 3) :
    get_risk_factors f = get_risk_factors g := by
  simp only [get_risk_factors, hbp, hchol, hbmi, hheart, hphys, hsmoker, hgen]

/-- C8: `get_risk_factors` is total on partial data — a missing key behaves
exactly as the neutral default (0 for the binary flags and BMI, 3 for
GenHlth), so the extractor agrees with itself on the mapping completed with
those defaults; and since the PhysActivity default 0 is a triggering value,
a missing PhysActivity key emits the Low Physical Activity factor. -/
theorem risk_factors_missing_key_defaults (features : FeatureSet) :
    get_risk_factors features
      = get_risk_factors (fun k => some (fget features k (default_value k)))
  ∧ (features "PhysActivity" = none →
      ({ factor := "Low Physical Activity", severity := "moderate", description := "Lack of exercise increases diabetes risk" } : RiskFactor)
        ∈ get_risk_factors features) := by
  constructor
  · apply get_risk_factors_congr <;> simp [fget, default_value]
  · intro hnone
    have hfget : fget features "PhysActivity" 0 = 0 := by
      simp [fget, hnone]
    rw [get_risk_factors_decomp]
    simp [rule_PhysActivity, hfget]

/-- C8 at a concrete input: the mapping with no keys at all still yields a
factor list, and the missing PhysActivity key triggers the Low Physical
Activity factor. -/
theorem risk_factors_missing_key_defaults_witness :
    (fun _ => none : FeatureSet) "PhysActivity" = none
  ∧ ({ factor := "Low Physical Activity", severity := "moderate", description := "Lack of exercise increases diabetes risk" } : RiskFactor)
      ∈ get_risk_factors (fun _ => none) :=
  ⟨rfl, (risk_factors_missing_key_defaults (fun _ => none)).2 rfl⟩

/-- The seven feature keys `get_risk_factors` and
`generate_base_recommendations` read. -/
def risk_keys : List String :=
  ["HighBP", "HighChol", "BMI", "HeartDiseaseorAttack", "PhysActivity", "Smoker", "GenHlth"]

/-- C10: two feature mappings agreeing on the seven risk keys produce
identical risk-factor lists, and, for the same prediction label, identical
recommendation bundles — no other key influences these outputs. -/
theorem risk_keys_noninterference (features other : FeatureSet) (prediction : ℤ)
    (hagree : ∀ k ∈ risk_keys, features k = other k) :
    get_risk_factors features = get_risk_factors other
  ∧ generate_base_recommendations features prediction (get_risk_factors features)
      = generate_base_recommendations other prediction (get_risk_factors other) := by
  have h1 : features "HighBP" = other "HighBP" := hagree _ (by simp [risk_keys])
  have h2 : features "HighChol" = other "HighChol" := hagree _ (by simp [risk_keys])
  have h3 : features "BMI" = other "BMI" := hagree _ (by simp [risk_keys])
  have h4 : features "HeartDiseaseorAttack" = other "HeartDiseaseorAttack" :=
    hagree _ (by simp [risk_keys])
  have h5 : features "PhysActivity" = other "PhysActivity" := hagree _ (by simp [risk_keys])
  have h6 : features "Smoker" = other "Smoker" := hagree _ (by simp [risk_keys])
  have h7 : features "GenHlth" = other "GenHlth" := hagree _ (by simp [risk_keys])
  have hrf : get_risk_factors features = get_risk_factors other := by
    simp only [get_risk_factors, fget, h1, h2, h3, h4, h5, h6, h7]
  refine ⟨hrf, ?_⟩
  simp only [generate_base_recommendations, fget, h1, h2, h3, h5, h6, hrf]

/-- A mapping that adds an unrelated Age key to the order example. -/
def order_example_extra : FeatureSet := fun k =>
  if k = "Age" then some 9 else order_example k

/-- C10 at a concrete input: adding an unrelated Age key changes neither the
risk factors nor the recommendation bundle. -/
theorem risk_keys_noninterference_witness :
    get_risk_factors order_example = get_risk_factors order_example_extra
  ∧ generate_base_recommendations order_example 1 (get_risk_factors order_example)
      = generate_base_recommendations order_example_extra 1 (get_risk_factors order_example_extra) :=
  risk_keys_noninterference order_example order_example_extra 1 (by decide)

/-- C4 (amended): for each sample whose positive-class probability from the
wrapped booster is `p`, the wrapper's probability row is `[1 - p, p]`
(summing to exactly 1), and the label is 1 iff `p > 0.5` (strict: the
source thresholds with `proba > 0.5`). -/
theorem xgb_wrapper_threshold (w : XGBoostBoosterWrapper) (X : List (List ℚ))
    (i : ℕ) (p : ℚ) (h : (w.booster X).get? i = some p) :
    (w.predict_proba X).get? i = some [1 - p, p]
  ∧ (1 - p) + p = 1
  ∧ ((w.predict X).get? i = some 1 ↔ p > 0.5)
  ∧ ((w.predict X).get? i = some 0 ↔ ¬ p > 0.5) := by
  rw [List.get?_eq_getElem?] at h
  refine ⟨?_, by ring, ?_, ?_⟩
  · simp [XGBoostBoosterWrapper.predict_proba, List.get?_eq_getElem?,
      List.getElem?_map, h]
  · simp only [XGBoostBoosterWrapper.predict, List.get?_eq_getElem?,
      List.getElem?_map, h, Option.map_some]
    by_cases hp : p > 0.5 <;> simp [hp]
  · simp only [XGBoostBoosterWrapper.predict, List.get?_eq_getElem?,
      List.getElem?_map, h, Option.map_some]
    by_cases hp : p > 0.5 <;> simp [hp]

/-- A booster scoring every sample at probability 1/2. -/
def half_booster : XGBoostBoosterWrapper :=
  { booster := fun _ => [1/2] }

/-- C4 counterexample: at positive-class probability exactly 0.5 the claim's
biconditional `label = 1 ↔ p ≥ 0.5` fails: `p ≥ 0.5` holds but the wrapper
labels the sample 0, because the source thresholds strictly
(`proba > 0.5`). -/
theorem xgb_wrapper_threshold_counterexample :
    ((1:ℚ)/2 ≥ 0.5)
  ∧ half_booster.predict [[0]] = [0]
  ∧ half_booster.predict [[0]] ≠ [1]
  ∧ half_booster.predict_proba [[0]] = [[1/2, 1/2]] := by
  refine ⟨by norm_num, ?_, ?_, ?_⟩
  · simp only [XGBoostBoosterWrapper.predict, half_booster, List.map]
    norm_num
  · simp only [XGBoostBoosterWrapper.predict, half_booster, List.map]
    norm_num
  · simp only [XGBoostBoosterWrapper.predict_proba, half_booster, List.map]
    norm_num

/-- A booster scoring every sample at probability 3/4. -/
def strong_booster : XGBoostBoosterWrapper :=
  { booster := fun _ => [3/4] }

/-- C4 (amended) at a concrete input: probability 3/4 gives row
`[1/4, 3/4]` and label 1. -/
theorem xgb_wrapper_threshold_witness :
    (strong_booster.predict_proba [[0]]).get? 0 = some [1 - 3/4, 3/4]
  ∧ ((1:ℚ) - 3/4) + 3/4 = 1
  ∧ ((strong_booster.predict [[0]]).get? 0 = some 1 ↔ (3:ℚ)/4 > 0.5)
  ∧ ((strong_booster.predict [[0]]).get? 0 = some 0 ↔ ¬ (3:ℚ)/4 > 0.5) :=
  xgb_wrapper_threshold strong_booster [[0]] 0 (3/4) rfl

/-- C5: a submission missing at least one required feature fails validation
with an error naming every missing required feature (not merely the first),
and keys outside the required list are dropped: the outcome only depends on
the mapping's values on `FEATURES`. -/
theorem predict_validate_reports_all_missing (input_features other : FeatureSet)
    (f : String) (hf : f ∈ FEATURES) (hmiss : input_features f = none)
    (hagree : ∀ g ∈ FEATURES, input_features g = other g) :
    (∃ m, predict_validate input_features = ValidationOutcome.error m FEATURES
       ∧ f ∈ m
       ∧ ∀ g ∈ FEATURES, input_features g = none → g ∈ m)
  ∧ predict_validate input_features = predict_validate other := by
  have hfm : f ∈ FEATURES.filter (fun g => (input_features g).isNone) :=
    List.mem_filter.2 ⟨hf, by simp [hmiss]⟩
  have hne : FEATURES.filter (fun g => (input_features g).isNone) ≠ [] :=
    List.ne_nil_of_mem hfm
  have hempty : (FEATURES.filter (fun g => (input_features g).isNone)).isEmpty = false := by
    cases hl : FEATURES.filter (fun g => (input_features g).isNone) with
    | nil => exact absurd hl hne
    | cons a t => simp [List.isEmpty]
  constructor
  · refine ⟨FEATURES.filter (fun g => (input_features g).isNone), ?_, hfm, ?_⟩
    · simp only [predict_validate, hempty, Bool.false_eq_true, if_false]
    · intro g hg hgnone
      exact List.mem_filter.2 ⟨hg, by simp [hgnone]⟩
  · have hfilter : FEATURES.filter (fun g => (input_features g).isNone)
        = FEATURES.filter (fun g => (other g).isNone) := by
      apply List.filter_congr
      intro g hg
      rw [hagree g hg]
    have hmap : FEATURES.map (fun g => fget input_features g 0)
        = FEATURES.map (fun g => fget other g 0) := by
      apply List.map_congr_left
      intro g hg
      simp only [fget, hagree g hg]
    simp only [predict_validate, hfilter, hmap]

/-- A submission missing BMI and Smoker but holding every other required
feature (at value 1). -/
def missing_two_example : FeatureSet := fun k =>
  if k = "BMI" ∨ k = "Smoker" then none
  else if k ∈ FEATURES then some 1 else none

/-- The same submission with an extra unlisted key. -/
def missing_two_extra_example : FeatureSet := fun k =>
  if k = "ExtraKey" then some 99 else missing_two_example k

/-- C5 at a concrete input: missing BMI and Smoker, the validator reports
exactly both (in canonical order), and the extra unlisted key changes
nothing. -/
theorem predict_validate_reports_all_missing_witness :
    ((∃ m, predict_validate missing_two_example = ValidationOutcome.error m FEATURES
        ∧ "BMI" ∈ m
        ∧ ∀ g ∈ FEATURES, missing_two_example g = none → g ∈ m)
      ∧ predict_validate missing_two_example = predict_validate missing_two_extra_example)
  ∧ predict_validate missing_two_example
      = ValidationOutcome.error ["BMI", "Smoker"] FEATURES :=
  ⟨predict_validate_reports_all_missing missing_two_example missing_two_extra_example
      "BMI" (by decide) (by decide) (by decide),
    by decide⟩

/-- The batch loop yields one item per patient. -/
theorem batch_loop_length (process : FeatureSet → Except String (ℤ × Option (ℚ × ℚ)))
    (n : ℕ) (patients_data : List FeatureSet) :
    (batch_loop process n patients_data).length = patients_data.length := by
  induction patients_data generalizing n with
  | nil => rfl
  | cons patient rest ih => simp [batch_loop, ih]

/-- The item at position `i` of the batch loop comes from the patient at
position `i` alone. -/
theorem batch_loop_get? (process : FeatureSet → Except String (ℤ × Option (ℚ × ℚ)))
    (n i : ℕ) (patients_data : List FeatureSet) :
    (batch_loop process n patients_data).get? i
      = (patients_data.get? i).map (fun patient => batch_item process (n + i) patient) := by
  induction patients_data generalizing n i with
  | nil => simp [batch_loop]
  | cons patient rest ih =>
    cases i with
    | zero => simp [batch_loop]
    | succ j =>
      have h := ih (n + 1) j
      have harith : n + 1 + j = n + (j + 1) := by omega
      rw [harith] at h
      simpa [batch_loop] using h

/-- C2: each batch item is processed independently, with `patient_id` its
1-based position — the item at position `i` depends on the patient at
position `i` alone, a failing patient yields a failure record carrying only
that `patient_id` and the error message, a succeeding patient yields the
prediction fields, and `total_patients` always equals the length of the
submitted list, whatever items fail. -/
theorem batch_predict_partial_failure
    (process : FeatureSet → Except String (ℤ × Option (ℚ × ℚ)))
    (patients_data : List FeatureSet) (i : ℕ) :
    (batch_predict process patients_data).total_patients = patients_data.length
  ∧ (batch_predict process patients_data).predictions.length = patients_data.length
  ∧ (batch_predict process patients_data).predictions.get? i
      = (patients_data.get? i).map (fun patient => batch_item process i patient)
  ∧ (∀ patient e, process patient = Except.error e →
      batch_item process i patient = BatchItem.failure (i + 1) e)
  ∧ (∀ patient prediction proba, process patient = Except.ok (prediction, proba) →
      batch_item process i patient
        = BatchItem.success (i + 1) prediction
            (if prediction = 1 then "High Risk" else "Low Risk")
            (proba.map (fun p => max p.1 p.2))
            (proba.map (fun p => p.2 * 100))) := by
  refine ⟨rfl, batch_loop_length process 0 patients_data, ?_, ?_, ?_⟩
  · have h := batch_loop_get? process 0 i patients_data
    simpa using h
  · intro patient e he
    simp [batch_item, he]
  · intro patient prediction proba hok
    simp [batch_item, hok]

/-- The concrete batch scorer of the witness: fails with a KeyError message
when BMI is absent, otherwise classifies by BMI ≥ 30. -/
def bmi_process : FeatureSet → Except String (ℤ × Option (ℚ × ℚ)) := fun patient =>
  match patient "BMI" with
  | none => Except.error "KeyError: BMI"
  | some b => Except.ok ((if b ≥ 30 then 1 else 0), some (1 - b / 100, b / 100))

/-- A patient record holding only BMI = 20. -/
def low_bmi_example : FeatureSet := fun k =>
  if k = "BMI" then some 20 else none

/-- C2 at a concrete input: of three patients the second (missing BMI)
fails, yet the response still covers all three, the failing item carries
only its 1-based id and message, and its neighbours succeed. -/
theorem batch_predict_partial_failure_witness :
    (batch_predict bmi_process [order_example, fun _ => none, low_bmi_example]).total_patients = 3
  ∧ (batch_predict bmi_process [order_example, fun _ => none, low_bmi_example]).predictions.get? 0
      = some (BatchItem.success 1 1 "High Risk" (some (17/25)) (some 32))
  ∧ (batch_predict bmi_process [order_example, fun _ => none, low_bmi_example]).predictions.get? 1
      = some (BatchItem.failure 2 "KeyError: BMI")
  ∧ (batch_predict bmi_process [order_example, fun _ => none, low_bmi_example]).predictions.get? 2
      = some (BatchItem.success 3 0 "Low Risk" (some (4/5)) (some 20)) := by
  have h0 := batch_predict_partial_failure bmi_process
    [order_example, fun _ => none, low_bmi_example] 0
  have h1 := batch_predict_partial_failure bmi_process
    [order_example, fun _ => none, low_bmi_example] 1
  have h2 := batch_predict_partial_failure bmi_process
    [order_example, fun _ => none, low_bmi_example] 2
  refine ⟨h0.1, ?_, ?_, ?_⟩
  · rw [h0.2.2.1]
    have hproc : bmi_process order_example
        = Except.ok ((1 : ℤ), some (1 - 32/100, (32 : ℚ)/100)) := by
      show (match order_example "BMI" with
        | none => Except.error "KeyError: BMI"
        | some b => Except.ok ((if b ≥ 30 then 1 else 0), some (1 - b / 100, b / 100)))
        = Except.ok ((1 : ℤ), some (1 - 32/100, (32 : ℚ)/100))
      rw [show order_example "BMI" = some 32 from by decide]
      norm_num
    show some (batch_item bmi_process 0 order_example)
      = some (BatchItem.success 1 1 "High Risk" (some (17/25)) (some 32))
    rw [h0.2.2.2.2 order_example 1 (some (1 - 32/100, 32/100)) hproc]
    norm_num [max_def]
  · rw [h1.2.2.1]
    rfl
  · rw [h2.2.2.1]
    have hproc : bmi_process low_bmi_example
        = Except.ok ((0 : ℤ), some (1 - 20/100, (20 : ℚ)/100)) := by
      show (match low_bmi_example "BMI" with
        | none => Except.error "KeyError: BMI"
        | some b => Except.ok ((if b ≥ 30 then 1 else 0), some (1 - b / 100, b / 100)))
        = Except.ok ((0 : ℤ), some (1 - 20/100, (20 : ℚ)/100))
      rw [show low_bmi_example "BMI" = some 20 from by decide]
      norm_num
    show some (batch_item bmi_process 2 low_bmi_example)
      = some (BatchItem.success 3 0 "Low Risk" (some (4/5)) (some 20))
    rw [h2.2.2.2.2 low_bmi_example 0 (some (1 - 20/100, 20/100)) hproc]
    norm_num [max_def]
